import Mathlib

/-!
Shallow embedding of the `agenda_lgo` Go client
(`src/agenda_lgo.go`, driver in `src/cmd/main.go`).

The repository is a small HTTP client with three operations:
`Login`, `FetchDocumentList` and `SaveDocument`, plus the helpers
`generateURL` and `setHeaders`.  We embed the control flow of these
functions directly.  The HTTP transport and the JSON parser are external
libraries (`net/http`, `encoding/json`); they are modelled as follows:

* a `Response` carries the raw body bytes, the result of parsing the body
  as JSON (`none` when the bytes are not valid JSON, which also covers the
  empty body), the numeric status code and the status text;
* the network is an oracle `World : Request → Response`, modelling runs in
  which the transport layer succeeds (every claim below conditions on the
  responses, not on transport failures);
* Go's `json.Decoder.Decode` into the repository's struct types is embedded
  by explicit decoding functions that follow Go's unmarshalling semantics:
  unknown keys are ignored, a missing key leaves the zero value, JSON
  `null` leaves the current value, later duplicate keys overwrite earlier
  ones, and a type mismatch is an error.

Indexing a Go slice out of range is a runtime panic, not an error value;
the outcome type of `FetchDocumentList` therefore has a separate `panicked`
constructor so that the panic in `documentResponse[0]` is observable.
-/

namespace AgendaLGO

/-- A JSON value, the abstract result of parsing a response body. -/
inductive Json where
  | null
  | bool (b : Bool)
  | num (n : Int)
  | str (s : String)
  | arr (elems : List Json)
  | obj (fields : List (String × Json))

/-- An HTTP request as the client builds it:
method, full URL, header list, and an optional request body. -/
structure Request where
  method : String
  url : String
  headers : List (String × String)
  body : Option String
deriving DecidableEq, Repr

/-- An HTTP response as the client observes it.  `bodyBytes` are the raw
body bytes; `bodyJson` is the JSON parse of those bytes (`none` when the
body is not valid JSON, e.g. malformed or empty); `status` is the status
text such as "403 Forbidden". -/
structure Response where
  statusCode : Nat
  status : String
  bodyBytes : List Nat
  bodyJson : Option Json

/-- The network oracle: the response the server gives to each request. -/
def World : Type := Request → Response

/-- `Authentication` (src/agenda_lgo.go:17): the credentials. -/
structure Authentication where
  email : String
  password : String
deriving DecidableEq, Repr

/-- `Document` (src/agenda_lgo.go:23): one salary statement. -/
structure Document where
  year : Int
  month : Int
  name : String
  downloadPath : String
  ty : String
  read : Bool
  createdAt : Int
deriving DecidableEq, Repr

/-- The zero value of `Document`, as Go initialises nested structs. -/
def Document.zero : Document :=
  { year := 0, month := 0, name := "", downloadPath := "", ty := ""
    read := false, createdAt := 0 }

/-- One element of `DocumentResponse` (src/agenda_lgo.go:34):
an account record of the listing envelope. -/
structure Account where
  id : String
  employee : String
  employer : String
  activationKey : Json
  documentList : List Document

/-- The zero value of `Account`.  The `activationKey` field has Go type
`interface\x7b\x7d`, whose zero value is `nil`; JSON `null` stands for it. -/
def Account.zero : Account :=
  { id := "", employee := "", employer := "", activationKey := Json.null
    documentList := [] }

/-- `URPResponse` (src/agenda_lgo.go:51): the login response carrying the
session token. -/
structure URPResponse where
  urp : String
deriving DecidableEq, Repr

/-- `LGO` (src/agenda_lgo.go:43): the client state. -/
structure LGO where
  sessionToken : String
  authFilePath : String
  outDir : String
deriving DecidableEq, Repr

/-- `baseURL` (src/agenda_lgo.go:14). -/
def baseURL : String := "https://agenda-lgo.de/api"

/-- `NewLGO` (src/agenda_lgo.go:56): fresh client, session token is the
Go zero value `""`. -/
def NewLGO (authFilePath outDir : String) : LGO :=
  { sessionToken := "", authFilePath := authFilePath, outDir := outDir }

/-- `generateURL` (src/agenda_lgo.go:196):
`baseURL + method + lgo.sessionToken`. -/
def generateURL (lgo : LGO) (method : String) : String :=
  baseURL ++ method ++ lgo.sessionToken

/-- `req.Header.Set(k, v)`: replace the value of key `k`, or append. -/
def headerSet (hs : List (String × String)) (k v : String) :
    List (String × String) :=
  if hs.any (fun p => p.1 = k) then
    hs.map (fun p => if p.1 = k then (k, v) else p)
  else
    hs ++ [(k, v)]

/-- `setHeaders` (src/agenda_lgo.go:189): the three fixed headers. -/
def setHeaders (req : Request) : Request :=
  let h1 := headerSet req.headers "Origin" "https://agenda-lgo.de"
  let h2 := headerSet h1 "User-Agent" "LGO-Downloader 0.1"
  let h3 := headerSet h2 "Content-Type" "application/x-www-form-urlencoded; charset=UTF-8"
  { req with headers := h3 }

/-! ## Go `encoding/json` unmarshalling into the repository's types -/

/-- Unmarshal a JSON value into a Go `string` field whose current value is
`cur`:  a string replaces it, `null` leaves it, anything else is an error. -/
def decodeStringField (cur : String) : Json → Except String String
  | Json.str s => Except.ok s
  | Json.null => Except.ok cur
  | _ => Except.error "json: cannot unmarshal value into Go string field"

/-- Unmarshal a JSON value into a Go integer field. -/
def decodeIntField (cur : Int) : Json → Except String Int
  | Json.num n => Except.ok n
  | Json.null => Except.ok cur
  | _ => Except.error "json: cannot unmarshal value into Go int field"

/-- Unmarshal a JSON value into a Go `bool` field. -/
def decodeBoolField (cur : Bool) : Json → Except String Bool
  | Json.bool b => Except.ok b
  | Json.null => Except.ok cur
  | _ => Except.error "json: cannot unmarshal value into Go bool field"

/-- Apply one JSON object member to a `URPResponse` under construction.
Only the key `urp` is known; unknown keys are ignored. -/
def applyURPField (r : URPResponse) (kv : String × Json) :
    Except String URPResponse :=
  if kv.1 = "urp" then
    (decodeStringField r.urp kv.2).map (fun s => { r with urp := s })
  else
    Except.ok r

/-- Unmarshal a JSON value into `URPResponse` (target starts at its zero
value, as in `urpResponse := URPResponse\x7b\x7d`). -/
def decodeURP : Json → Except String URPResponse
  | Json.null => Except.ok { urp := "" }
  | Json.obj fields => fields.foldlM applyURPField { urp := "" }
  | _ => Except.error "json: cannot unmarshal value into Go value of type URPResponse"

/-- Apply one JSON object member to a `Document` under construction. -/
def applyDocumentField (d : Document) (kv : String × Json) :
    Except String Document :=
  if kv.1 = "year" then
    (decodeIntField d.year kv.2).map (fun v => { d with year := v })
  else if kv.1 = "month" then
    (decodeIntField d.month kv.2).map (fun v => { d with month := v })
  else if kv.1 = "name" then
    (decodeStringField d.name kv.2).map (fun v => { d with name := v })
  else if kv.1 = "downloadPath" then
    (decodeStringField d.downloadPath kv.2).map
      (fun v => { d with downloadPath := v })
  else if kv.1 = "type" then
    (decodeStringField d.ty kv.2).map (fun v => { d with ty := v })
  else if kv.1 = "read" then
    (decodeBoolField d.read kv.2).map (fun v => { d with read := v })
  else if kv.1 = "createdAt" then
    (decodeIntField d.createdAt kv.2).map (fun v => { d with createdAt := v })
  else
    Except.ok d

/-- Unmarshal a JSON value into a `Document` (fresh zero value). -/
def decodeDocument : Json → Except String Document
  | Json.null => Except.ok Document.zero
  | Json.obj fields => fields.foldlM applyDocumentField Document.zero
  | _ => Except.error "json: cannot unmarshal value into Go value of type Document"

/-- Unmarshal a JSON value into a `[]Document` field. -/
def decodeDocumentList (cur : List Document) :
    Json → Except String (List Document)
  | Json.null => Except.ok cur
  | Json.arr xs => xs.mapM decodeDocument
  | _ => Except.error "json: cannot unmarshal value into Go value of type []Document"

/-- Apply one JSON object member to an `Account` under construction. -/
def applyAccountField (a : Account) (kv : String × Json) :
    Except String Account :=
  if kv.1 = "id" then
    (decodeStringField a.id kv.2).map (fun v => { a with id := v })
  else if kv.1 = "employee" then
    (decodeStringField a.employee kv.2).map (fun v => { a with employee := v })
  else if kv.1 = "employer" then
    (decodeStringField a.employer kv.2).map (fun v => { a with employer := v })
  else if kv.1 = "activationKey" then
    Except.ok { a with activationKey := kv.2 }
  else if kv.1 = "documents" then
    (decodeDocumentList a.documentList kv.2).map
      (fun v => { a with documentList := v })
  else
    Except.ok a

/-- Unmarshal a JSON value into an `Account` (fresh zero value). -/
def decodeAccount : Json → Except String Account
  | Json.null => Except.ok Account.zero
  | Json.obj fields => fields.foldlM applyAccountField Account.zero
  | _ => Except.error "json: cannot unmarshal value into Go value of type Account"

/-- Unmarshal a JSON value into `DocumentResponse` (a slice of accounts):
`null` yields the nil slice, an array decodes element-wise. -/
def decodeDocumentResponse : Json → Except String (List Account)
  | Json.null => Except.ok []
  | Json.arr xs => xs.mapM decodeAccount
  | _ => Except.error "json: cannot unmarshal value into Go value of type DocumentResponse"

/-- `json.NewDecoder(resp.Body).Decode(&x)` on a body that may not be valid
JSON: a malformed (or empty) body is itself a decode error. -/
def decodeBody (dec : Json → Except String α) :
    Option Json → Except String α
  | none => Except.error "invalid JSON in response body"
  | some j => dec j

/-! ## The three operations -/

/-- `generateAuthentication` (src/agenda_lgo.go:121), after the credentials
file has been read and decoded: the form body
`fmt.Sprintf("eml=%s&pwd=%s", auth.Email, auth.Password)`. -/
def generateAuthentication (auth : Authentication) : String :=
  "eml=" ++ auth.email ++ "&pwd=" ++ auth.password

/-- The POST request `Login` builds first (src/agenda_lgo.go:147-151). -/
def loginPostRequest (lgo : LGO) (auth : Authentication) : Request :=
  setHeaders
    { method := "POST", url := generateURL lgo "/auth", headers := []
      body := some (generateAuthentication auth) }

/-- The confirming GET request `Login` builds second
(src/agenda_lgo.go:169-173), after the session token has been stored. -/
def loginGetRequest (lgo : LGO) : Request :=
  setHeaders
    { method := "GET", url := generateURL lgo "/auth", headers := []
      body := none }

/-- The result of a `Login` run: the returned value (`Except.ok ()` for the
`nil` error), the final client state (the receiver is a pointer, so the
mutation of `sessionToken` persists even when an error is returned), and
the requests issued, in order. -/
structure LoginResult where
  outcome : Except String Unit
  lgo : LGO
  trace : List Request

/-- `Login` (src/agenda_lgo.go:139): POST the credentials to `/auth`,
decode the `urp` token from the response, store it, then issue a confirming
GET to `/auth` and require status 200, returning
`errors.New(resp.Status)` otherwise. -/
def Login (lgo : LGO) (auth : Authentication) (world : World) : LoginResult :=
  let req1 := loginPostRequest lgo auth
  let resp1 := world req1
  match decodeBody decodeURP resp1.bodyJson with
  | Except.error e => { outcome := Except.error e, lgo := lgo, trace := [req1] }
  | Except.ok urpResponse =>
    let lgo1 := { lgo with sessionToken := urpResponse.urp }
    let req2 := loginGetRequest lgo1
    let resp2 := world req2
    if resp2.statusCode ≠ 200 then
      { outcome := Except.error resp2.status, lgo := lgo1, trace := [req1, req2] }
    else
      { outcome := Except.ok (), lgo := lgo1, trace := [req1, req2] }

/-- The request `FetchDocumentList` builds (src/agenda_lgo.go:99-103). -/
def fetchRequest (lgo : LGO) : Request :=
  setHeaders
    { method := "GET", url := generateURL lgo "/me/e", headers := []
      body := none }

/-- Outcome of `FetchDocumentList`: a document list, a returned error
value, or a runtime panic (Go panics are not error values). -/
inductive FetchOutcome where
  | ok (docs : List Document)
  | err (e : String)
  | panicked (msg : String)

/-- `FetchDocumentList` (src/agenda_lgo.go:97): GET `/me/e`, decode the
body as `DocumentResponse`, and return `documentResponse[0].DocumentList`.
The index-0 access panics at runtime when the decoded slice is empty. -/
def FetchDocumentList (lgo : LGO) (world : World) :
    FetchOutcome × List Request :=
  let req := fetchRequest lgo
  let resp := world req
  let outcome :=
    match decodeBody decodeDocumentResponse resp.bodyJson with
    | Except.error e => FetchOutcome.err e
    | Except.ok documentResponse =>
      match documentResponse with
      | [] =>
        FetchOutcome.panicked "runtime error: index out of range [0] with length 0"
      | account :: _ => FetchOutcome.ok account.documentList
  (outcome, [req])

/-- Go `strconv`-style decimal rendering of a natural number, as used by
`time.Month.String` for out-of-range months. -/
def natDecimal (n : Nat) : String := toString n

/-- `time.Month.String` (Go standard library): the English month name for
1..12, and `"%!Month(" + n + ")"` otherwise, where the month value is
converted through `uint64` (two's-complement wrap-around for negatives). -/
def monthString (m : Int) : String :=
  if 1 ≤ m ∧ m ≤ 12 then
    [ "January", "February", "March", "April", "May", "June", "July",
      "August", "September", "October", "November", "December"
    ].getD (m.toNat - 1) ""
  else
    "%!Month(" ++ natDecimal ((m % (2 ^ 64 : Int)).toNat) ++ ")"

/-- Go `fmt.Sprintf("%d", n)` for a signed integer. -/
def intDecimal (n : Int) : String := toString n

/-- The output path of `SaveDocument` (src/agenda_lgo.go:86):
`fmt.Sprintf("%s/%d-%s.pdf", lgo.outDir, document.Year,
time.Month(document.Month))`. -/
def savePath (lgo : LGO) (document : Document) : String :=
  lgo.outDir ++ "/" ++ intDecimal document.year ++ "-"
    ++ monthString document.month ++ ".pdf"

/-- The download request `SaveDocument` builds (src/agenda_lgo.go:71-77):
a GET to `generateURL(document.DownloadPath + "/" + document.Name)`. -/
def saveRequest (lgo : LGO) (document : Document) : Request :=
  setHeaders
    { method := "GET"
      url := generateURL lgo (document.downloadPath ++ "/" ++ document.name)
      headers := [], body := none }

/-- A file written to disk: its path and its content bytes. -/
structure FileWrite where
  path : String
  contents : List Nat

/-- `SaveDocument` (src/agenda_lgo.go:70): GET the download URL and stream
the response body via `io.Copy` into `os.Create`-d file
`outDir/<year>-<month>.pdf`.  The response status is never inspected; the
write is the full body, byte for byte.  (Runs in which the transport or the
filesystem fails are outside the `World` model; on the success path the
function returns the `nil` error.) -/
def SaveDocument (lgo : LGO) (document : Document) (world : World) :
    FileWrite × List Request :=
  let req := saveRequest lgo document
  let resp := world req
  ({ path := savePath lgo document, contents := resp.bodyBytes }, [req])

/-! ## Concrete inputs used by witnesses and counterexamples -/

/-- A fresh client as the driver creates it (`NewLGO(".auth", "out")`). -/
def lgo0 : LGO := NewLGO ".auth" "out"

/-- Concrete credentials. -/
def auth0 : Authentication := { email := "a@b", password := "pw" }

/-- A concrete document, as in the spec's save example. -/
def doc0 : Document :=
  { year := 2023, month := 1, name := "f.pdf", downloadPath := "/d"
    ty := "", read := false, createdAt := 0 }

/-- A server that answers the login POST with body `{"urp":"TOK"}` and the
confirming GET with `403 Forbidden`. -/
def deniedWorld : World := fun req =>
  if req.method = "POST" then
    { statusCode := 200, status := "200 OK", bodyBytes := []
      bodyJson := some (Json.obj [("urp", Json.str "TOK")]) }
  else
    { statusCode := 403, status := "403 Forbidden", bodyBytes := []
      bodyJson := none }

/-- A server that answers the login POST with body `{"urp":"TOK"}` and the
confirming GET with HTTP 200. -/
def tokWorld : World := fun req =>
  if req.method = "POST" then
    { statusCode := 200, status := "200 OK", bodyBytes := []
      bodyJson := some (Json.obj [("urp", Json.str "TOK")]) }
  else
    { statusCode := 200, status := "200 OK", bodyBytes := []
      bodyJson := none }

/-- A server that answers the login POST with the valid JSON body `\x7b\x7d`
(bytes 123, 125): an object with no `urp` member; and any GET with 200. -/
def missingURPWorld : World := fun req =>
  if req.method = "POST" then
    { statusCode := 200, status := "200 OK", bodyBytes := [123, 125]
      bodyJson := some (Json.obj []) }
  else
    { statusCode := 200, status := "200 OK", bodyBytes := []
      bodyJson := none }

/-- A server whose response body is not valid JSON. -/
def malformedWorld : World := fun _ =>
  { statusCode := 200, status := "200 OK", bodyBytes := [110, 111]
    bodyJson := none }

/-- A server answering the listing GET with body `[]` (bytes 91, 93):
valid JSON, an empty account-envelope sequence. -/
def emptyListWorld : World := fun _ =>
  { statusCode := 200, status := "200 OK", bodyBytes := [91, 93]
    bodyJson := some (Json.arr []) }

/-- The JSON of the spec's example document descriptor. -/
def marchDocJson : Json :=
  Json.obj [("year", Json.num 2023), ("month", Json.num 3),
    ("name", Json.str "march.pdf"), ("downloadPath", Json.str "/docs")]

/-- The spec's example descriptor as decoded by Go: absent keys keep the
zero value. -/
def marchDoc : Document :=
  { year := 2023, month := 3, name := "march.pdf", downloadPath := "/docs"
    ty := "", read := false, createdAt := 0 }

/-- The spec's example account as decoded by Go. -/
def marchAccount : Account :=
  { id := "1", employee := "", employer := "", activationKey := Json.null
    documentList := [marchDoc] }

/-- A server answering the listing GET with a one-account envelope whose
`documents` field holds the spec's example descriptor. -/
def oneAccountWorld : World := fun _ =>
  { statusCode := 200, status := "200 OK", bodyBytes := []
    bodyJson := some (Json.arr [Json.obj [("id", Json.str "1"),
      ("documents", Json.arr [marchDocJson])]]) }

/-- A server answering any request with HTTP 200 and body bytes "PDF". -/
def okPdfWorld : World := fun _ =>
  { statusCode := 200, status := "200 OK", bodyBytes := [80, 68, 70]
    bodyJson := none }

/-- A server answering any request with HTTP 500 and the same body bytes
"PDF" as `okPdfWorld`. -/
def errPdfWorld : World := fun _ =>
  { statusCode := 500, status := "500 Internal Server Error"
    bodyBytes := [80, 68, 70], bodyJson := none }

/-! ## Claims -/

/-- Claim C1 (code bug): on the listing response `[]` — an empty
account-envelope sequence — `FetchDocumentList` does not return an error
value; the index-0 access `documentResponse[0]` is a runtime panic.  This
theorem evaluates the embedded code at the failing input. -/
theorem fetchDocumentList_empty_envelope_panics :
    (FetchDocumentList lgo0 emptyListWorld).1 =
      FetchOutcome.panicked
        "runtime error: index out of range [0] with length 0" := rfl

/-- Claim C2 (counterexample): with the server answering the login POST
with `\x7b"urp":"TOK"\x7d` and the confirming GET with `403 Forbidden`,
`Login` does return the status text as its error, but the session state is
NOT as if authentication never succeeded: the session token field, `""` on
the fresh client, has been set to `"TOK"` before the confirming GET and
keeps that value. -/
theorem login_403_keeps_token_counterexample :
    (Login lgo0 auth0 deniedWorld).outcome = Except.error "403 Forbidden" ∧
    (Login lgo0 auth0 deniedWorld).lgo.sessionToken = "TOK" ∧
    lgo0.sessionToken = "" ∧ ("TOK" : String) ≠ "" :=
  ⟨rfl, rfl, rfl, by decide⟩

/-- Claim C2 (amended): when the POST response decodes to a `urp` token and
the confirming GET returns a status other than 200, `Login` returns
`errors.New(resp.Status)` — the error is exactly the HTTP status text —
but the session token field retains the token stored from the POST
response. -/
theorem login_nonOK_confirm_errors_with_status (lgo : LGO)
    (auth : Authentication) (world : World) (urp : URPResponse)
    (hdec : decodeBody decodeURP
      (world (loginPostRequest lgo auth)).bodyJson = Except.ok urp)
    (hstatus : (world (loginGetRequest
      { lgo with sessionToken := urp.urp })).statusCode ≠ 200) :
    (Login lgo auth world).outcome = Except.error
      (world (loginGetRequest { lgo with sessionToken := urp.urp })).status ∧
    (Login lgo auth world).lgo.sessionToken = urp.urp := by
  simp [Login, hdec, hstatus]

/-- Witness for the amended Claim C2 at the concrete 403 server. -/
theorem login_nonOK_confirm_errors_with_status_witness :
    (Login lgo0 auth0 deniedWorld).outcome = Except.error "403 Forbidden" ∧
    (Login lgo0 auth0 deniedWorld).lgo.sessionToken = "TOK" :=
  login_nonOK_confirm_errors_with_status lgo0 auth0 deniedWorld
    { urp := "TOK" } (by rfl) (by decide)

/-- Claim C3 (counterexample): on the login POST response `\x7b\x7d` —
valid JSON in which the field `urp` is missing — Go's decoder succeeds and
leaves the zero value `""`, so `Login` does NOT fail: it proceeds to the
confirming GET (two requests are issued) and, the GET returning 200,
succeeds with the empty session token. -/
theorem login_missing_urp_proceeds_counterexample :
    (Login lgo0 auth0 missingURPWorld).outcome = Except.ok () ∧
    (Login lgo0 auth0 missingURPWorld).trace.length = 2 ∧
    (Login lgo0 auth0 missingURPWorld).lgo.sessionToken = "" :=
  ⟨rfl, rfl, rfl⟩

/-- Claim C3 (amended): `Login` fails immediately — returning the decode
error, issuing no confirming GET, and leaving the client state unchanged —
exactly when decoding the POST response body as `URPResponse` fails:
malformed JSON, or a `urp` member whose value is not a string (and not
null).  A valid JSON object merely missing `urp` decodes successfully to
the empty token and `Login` proceeds to the confirming GET. -/
theorem login_decode_failure_aborts (lgo : LGO) (auth : Authentication)
    (world : World) (e : String)
    (hdec : decodeBody decodeURP
      (world (loginPostRequest lgo auth)).bodyJson = Except.error e) :
    (Login lgo auth world).outcome = Except.error e ∧
    (Login lgo auth world).trace = [loginPostRequest lgo auth] ∧
    (Login lgo auth world).lgo = lgo := by
  simp [Login, hdec]

/-- Witness for the amended Claim C3 at a server returning a body that is
not valid JSON. -/
theorem login_decode_failure_aborts_witness :
    (Login lgo0 auth0 malformedWorld).outcome =
      Except.error "invalid JSON in response body" ∧
    (Login lgo0 auth0 malformedWorld).trace = [loginPostRequest lgo0 auth0] ∧
    (Login lgo0 auth0 malformedWorld).lgo = lgo0 :=
  login_decode_failure_aborts lgo0 auth0 malformedWorld
    "invalid JSON in response body" (by rfl)

/-- Claim C4: for any credentials and any token `t`, if the server answers
the login POST with body `\x7b"urp": t\x7d` and the confirming GET (whose
URL carries `t`) with HTTP 200, then `Login` succeeds and the resulting
session token equals `t`. -/
theorem login_success_stores_token (lgo : LGO) (auth : Authentication)
    (world : World) (t : String)
    (hpost : (world (loginPostRequest lgo auth)).bodyJson =
      some (Json.obj [("urp", Json.str t)]))
    (hget : (world (loginGetRequest
      { lgo with sessionToken := t })).statusCode = 200) :
    (Login lgo auth world).outcome = Except.ok () ∧
    (Login lgo auth world).lgo.sessionToken = t := by
  simp [Login, decodeBody, hpost, decodeURP, List.foldlM, applyURPField,
    decodeStringField, Except.map, hget]

/-- Witness for Claim C4 at the concrete server issuing token "TOK". -/
theorem login_success_stores_token_witness :
    (Login lgo0 auth0 tokWorld).outcome = Except.ok () ∧
    (Login lgo0 auth0 tokWorld).lgo.sessionToken = "TOK" :=
  login_success_stores_token lgo0 auth0 tokWorld "TOK" (by rfl) (by rfl)

/-- Claim C5: whenever the listing response decodes as a non-empty
account-envelope sequence, `FetchDocumentList` returns exactly the
`documents` sequence of the first account entry. -/
theorem fetchDocumentList_first_account (lgo : LGO) (world : World)
    (a : Account) (rest : List Account)
    (hdec : decodeBody decodeDocumentResponse
      (world (fetchRequest lgo)).bodyJson = Except.ok (a :: rest)) :
    (FetchDocumentList lgo world).1 = FetchOutcome.ok a.documentList := by
  simp [FetchDocumentList, hdec]

/-- Witness for Claim C5 at the spec's one-account listing: the result is
exactly one descriptor, with month 3. -/
theorem fetchDocumentList_first_account_witness :
    (FetchDocumentList lgo0 oneAccountWorld).1 =
      FetchOutcome.ok marchAccount.documentList ∧
    marchAccount.documentList.length = 1 ∧
    (marchAccount.documentList.headD Document.zero).month = 3 :=
  ⟨fetchDocumentList_first_account lgo0 oneAccountWorld marchAccount []
    (by rfl), by decide, by decide⟩

/-- The month-name mapping stated by the spec (1 → "January", …,
12 → "December"), written from the spec's words for comparison with the
embedded `time.Month` rendering used by the code. -/
def specMonthName : Int → String
  | 1 => "January"
  | 2 => "February"
  | 3 => "March"
  | 4 => "April"
  | 5 => "May"
  | 6 => "June"
  | 7 => "July"
  | 8 => "August"
  | 9 => "September"
  | 10 => "October"
  | 11 => "November"
  | 12 => "December"
  | _ => ""

/-- Claim C6: for a document whose month is in 1..12, `SaveDocument`
writes to `outputDir + "/" + year + "-" + MonthName + ".pdf"` with the
English full month name. -/
theorem saveDocument_output_path (lgo : LGO) (document : Document)
    (world : World) (h1 : 1 ≤ document.month) (h2 : document.month ≤ 12) :
    ((SaveDocument lgo document world).1).path =
      lgo.outDir ++ "/" ++ intDecimal document.year ++ "-"
        ++ specMonthName document.month ++ ".pdf" := by
  rcases document with ⟨y, m, n, dp, t, r, c⟩
  simp only at h1 h2
  show savePath lgo ⟨y, m, n, dp, t, r, c⟩ = _
  simp only [savePath]
  interval_cases m <;> rfl

/-- Witness for Claim C6: January document saved to "out/2023-January.pdf". -/
theorem saveDocument_output_path_witness :
    (1 : Int) ≤ doc0.month ∧ doc0.month ≤ 12 ∧
    ((SaveDocument lgo0 doc0 okPdfWorld).1).path = "out/2023-January.pdf" :=
  ⟨by decide, by decide,
    saveDocument_output_path lgo0 doc0 okPdfWorld (by decide) (by decide)⟩

/-- Claim C7: a saved document's file content is exactly the response
body, byte for byte, for every response body (the statement quantifies
over all worlds, hence over bodies of every size including the empty
body); no transformation or truncation occurs. -/
theorem saveDocument_content_roundtrip (lgo : LGO) (document : Document)
    (world : World) :
    ((SaveDocument lgo document world).1).contents =
      (world (saveRequest lgo document)).bodyBytes := rfl

/-- Claim C8: the request URL is always `baseURL ++ path ++ sessionToken`
with no separator before the token; the initial login POST of a fresh
client (whose token is the Go zero value `""`) targets exactly
`https://agenda-lgo.de/api/auth`; and the download GET uses the path
`downloadPath + "/" + name`. -/
theorem generateURL_scheme :
    (∀ (s a o p : String),
      generateURL { sessionToken := s, authFilePath := a, outDir := o } p =
        "https://agenda-lgo.de/api" ++ p ++ s) ∧
    (∀ (a o : String) (auth : Authentication) (world : World),
      (Login (NewLGO a o) auth world).trace.head? =
        some (loginPostRequest (NewLGO a o) auth) ∧
      (loginPostRequest (NewLGO a o) auth).url =
        "https://agenda-lgo.de/api/auth") ∧
    (∀ (lgo : LGO) (document : Document),
      (saveRequest lgo document).url = "https://agenda-lgo.de/api"
        ++ document.downloadPath ++ "/" ++ document.name
        ++ lgo.sessionToken) := by
  refine ⟨fun s a o p => rfl, fun a o auth world => ⟨?_, rfl⟩, ?_⟩
  · cases hdec : decodeBody decodeURP
        (world (loginPostRequest (NewLGO a o) auth)).bodyJson with
    | error e => simp [Login, hdec]
    | ok urp => simp [Login, hdec, apply_ite]
  · intro lgo document
    simp [saveRequest, setHeaders, generateURL, baseURL, String.append_assoc]

/-- The three fixed headers of `setHeaders`, as carried by a request. -/
def carriesFixedHeaders (req : Request) : Prop :=
  ("Origin", "https://agenda-lgo.de") ∈ req.headers ∧
  ("User-Agent", "LGO-Downloader 0.1") ∈ req.headers ∧
  ("Content-Type", "application/x-www-form-urlencoded; charset=UTF-8")
    ∈ req.headers

theorem setHeaders_fresh_carries (m u : String) (b : Option String) :
    carriesFixedHeaders
      (setHeaders { method := m, url := u, headers := [], body := b }) := by
  simp [carriesFixedHeaders, setHeaders, headerSet]

/-- Claim C9: every request issued by `Login`, `FetchDocumentList` and
`SaveDocument` — the GETs with no body included — carries the three fixed
headers Origin, User-Agent and Content-Type set by `setHeaders`. -/
theorem all_requests_carry_fixed_headers (lgo : LGO)
    (auth : Authentication) (document : Document) (world : World) :
    (∀ req ∈ (Login lgo auth world).trace, carriesFixedHeaders req) ∧
    (∀ req ∈ (FetchDocumentList lgo world).2, carriesFixedHeaders req) ∧
    (∀ req ∈ (SaveDocument lgo document world).2, carriesFixedHeaders req) := by
  refine ⟨?_, ?_, ?_⟩
  · intro req hreq
    cases hdec : decodeBody decodeURP
        (world (loginPostRequest lgo auth)).bodyJson with
    | error e =>
      simp [Login, hdec] at hreq
      subst hreq
      exact setHeaders_fresh_carries _ _ _
    | ok urp =>
      simp [Login, hdec, apply_ite] at hreq
      rcases hreq with h | h <;> subst h
      · exact setHeaders_fresh_carries _ _ _
      · exact setHeaders_fresh_carries _ _ _
  · intro req hreq
    simp [FetchDocumentList] at hreq
    subst hreq
    exact setHeaders_fresh_carries _ _ _
  · intro req hreq
    simp [SaveDocument] at hreq
    subst hreq
    exact setHeaders_fresh_carries _ _ _

/-- Witness for Claim C9: the listing request of the fresh client carries
the three fixed headers. -/
theorem all_requests_carry_fixed_headers_witness :
    carriesFixedHeaders (fetchRequest lgo0) :=
  (all_requests_carry_fixed_headers lgo0 auth0 doc0 okPdfWorld).2.1
    (fetchRequest lgo0) (List.Mem.head _)

/-- Claim C10: `SaveDocument` never inspects the HTTP status of the
download response: its result (output path, file contents, request
issued) depends only on the response body bytes, so two servers agreeing
on the body but answering different statuses — 200 or any error status —
yield the identical saved file, with no error reported. -/
theorem saveDocument_ignores_status (lgo : LGO) (document : Document)
    (w1 w2 : World)
    (h : (w1 (saveRequest lgo document)).bodyBytes =
      (w2 (saveRequest lgo document)).bodyBytes) :
    SaveDocument lgo document w1 = SaveDocument lgo document w2 := by
  simp only [SaveDocument, h]

/-- Witness for Claim C10: an HTTP 200 server and an HTTP 500 server with
the same body "PDF" produce the identical saved file. -/
theorem saveDocument_ignores_status_witness :
    (okPdfWorld (saveRequest lgo0 doc0)).bodyBytes =
      (errPdfWorld (saveRequest lgo0 doc0)).bodyBytes ∧
    SaveDocument lgo0 doc0 okPdfWorld = SaveDocument lgo0 doc0 errPdfWorld :=
  ⟨rfl, saveDocument_ignores_status lgo0 doc0 okPdfWorld errPdfWorld rfl⟩

end AgendaLGO
